import Mathlib

/-!
Verification of the website-reachability prober
(`src/StatusCheck/url_status_checker.py`).

The Python source is shallowly embedded: pure string functions become Lean
functions over `List Char`; the network layer is an explicit `Transport`
parameter (`String → Option Int`: `some code` is an HTTP response with that
status code, `none` is a network-layer failure — the exceptions
`requests.RequestException`, `aiohttp.ClientError`, `asyncio.TimeoutError`);
Python exceptions that escape a function are modelled with `Except PyErr`.
Wall-clock timing (`time.time()` differences) is abstracted: every produced
`time_taken` field is 0, since no verified property depends on elapsed time.
-/

namespace StatusCheck

/-- Python exceptions that the verified properties mention. -/
inductive PyErr where
  | typeError
  | zeroDivisionError
deriving DecidableEq, Repr

/-! ## Name normalization: `WebsiteChecker.clean_company_name` (lines 34-58) -/

/-- Characters stripped from both ends by the strip call on line 40:
the BOM, the double quote and the single quote. -/
def isStripChar (c : Char) : Bool :=
  c = '\uFEFF' || c = '"' || c = '\''

/-- Line 40: remove any run of BOM / quote characters at
either end of the string. -/
def strip_edges (s : String) : String :=
  ⟨((s.data.dropWhile isStripChar).reverse.dropWhile isStripChar).reverse⟩

/-- Whitespace as matched by the regex class used in the suffix patterns
(restricted to the ASCII whitespace characters). -/
def isPySpace (c : Char) : Bool :=
  c = ' ' || c = '\t' || c = '\n' || c = '\r' || c = '\x0b' || c = '\x0c'

/-- Case-insensitively consume `sufRev` (a reversed suffix) from the front of
`rev` (a reversed string); `none` if it does not match. -/
def dropSuffixCI : List Char → List Char → Option (List Char)
  | [], rest => some rest
  | _ :: _, [] => none
  | c :: cs, d :: ds => if c.toLower = d.toLower then dropSuffixCI cs ds else none

/-- Match `\s+suf\.?` right before the anchor against a reversed string:
on success return the reversed remainder that precedes the match. -/
def subSuffixEnd (suf : String) (optDot : Bool) (rev : List Char) : Option (List Char) :=
  let rev1 := if optDot then
      (match rev with
       | '.' :: t => t
       | _ => rev)
    else rev
  match dropSuffixCI suf.data.reverse rev1 with
  | none => none
  | some rest =>
    let rest2 := rest.dropWhile isPySpace
    if rest2.length < rest.length then some rest2 else none

/-- One regex `re.sub` application with pattern `\s+SUF\.?` anchored by `$`
(flags=IGNORECASE): if the string ends with one-or-more whitespace, then `suf`
case-insensitively, then an optional literal dot, remove that ending;
`$` also matches just before a final newline, which is then kept; otherwise
leave the string unchanged. -/
def stripSuffixOnce (suf : String) (optDot : Bool) (s : String) : String :=
  let rev := s.data.reverse
  match subSuffixEnd suf optDot rev with
  | some rest => ⟨rest.reverse⟩
  | none =>
    match rev with
    | '\n' :: t =>
      match subSuffixEnd suf optDot t with
      | some rest => ⟨('\n' :: rest).reverse⟩
      | none => s
    | _ => s

/-- The six suffix regexes of lines 43-50, in source order; the Bool records
whether the pattern ends in `\.?`. -/
def suffix_patterns : List (String × Bool) :=
  [("Inc", true), ("Corp", true), ("Incorporated", false),
   ("Corporation", false), ("Limited", false), ("Ltd", true)]

/-- Lines 52-53: each pattern applied once, in order, to the current string. -/
def strip_suffixes (s : String) : String :=
  suffix_patterns.foldl (fun acc p => stripSuffixOnce p.1 p.2 acc) s

/-- The deletion set passed to maketrans on line 56. -/
def punctChars : List Char :=
  "!@#$%^&*()_+-=[]\x7b\x7d|;:,.<>?".data

/-- Line 56: delete every character of the punctuation set. -/
def remove_punct (s : String) : String :=
  ⟨s.data.filter (fun c => ¬ punctChars.contains c)⟩

/-- Split into maximal whitespace-free words, as Python `str.split()` does. -/
def addChar (c : Char) (acc : List (List Char)) : List (List Char) :=
  if isPySpace c then [] :: acc
  else match acc with
    | [] => [[c]]
    | w :: ws => (c :: w) :: ws

/-- Python split on whitespace runs with empties dropped (line 58). -/
def pywords (s : String) : List String :=
  ((s.data.foldr addChar []).filter (fun w => ¬ w.isEmpty)).map (fun w => ⟨w⟩)

/-- Join the words with single spaces (line 58). -/
def joinSpace : List String → String
  | [] => ""
  | [w] => w
  | w :: ws => w ++ " " ++ joinSpace ws

/-- Model of `WebsiteChecker.clean_company_name` (lines 34-58): strip BOM/quotes from
the ends, apply the six suffix regexes in order, delete the punctuation set,
collapse whitespace runs to single spaces and trim.  (The `lru_cache`
memoization has no semantic content in a pure model.) -/
def clean_company_name (name : String) : String :=
  joinSpace (pywords (remove_punct (strip_suffixes (strip_edges name))))

/-! ## URL generation: `WebsiteChecker.generate_website_urls` (lines 60-75) -/

/-- ASCII lower-casing, as the lower call on line 64. -/
def lowerStr (s : String) : String :=
  ⟨s.data.map Char.toLower⟩

/-- Space removal of line 64: drop every ASCII space. -/
def removeSpaces (s : String) : String :=
  ⟨s.data.filter (fun c => c ≠ ' ')⟩

/-- Model of `WebsiteChecker.generate_website_urls` (lines 60-75): lower-case the
cleaned name, remove spaces, substitute into the six URL templates in source
order. -/
def generate_website_urls (name : String) : List String :=
  let cleaned_name := removeSpaces (lowerStr (clean_company_name name))
  [ "https://www." ++ cleaned_name ++ ".com"
  , "https://" ++ cleaned_name ++ ".com"
  , "http://www." ++ cleaned_name ++ ".com"
  , "http://" ++ cleaned_name ++ ".com"
  , "https://" ++ cleaned_name ++ ".net"
  , "https://www." ++ cleaned_name ++ ".org" ]

/-! ## The network boundary and probe results -/

/-- A deterministic stub transport: one HTTP GET to a URL either yields an
HTTP response with a status code (`some code`, any code, 4xx/5xx included) or
fails at the network layer (`none`, standing for the caught exceptions
`requests.RequestException` / `aiohttp.ClientError` / `asyncio.TimeoutError`). -/
def Transport : Type := String → Option Int

/-- The result dictionary shape shared by all three strategies
(lines 104-110, 117-123, 157-163, 187-193, 197-203).  `status_code` is
`Option Int` because the async failure dictionary stores Python `None`
(line 121); `time_taken` is abstracted to 0 in every produced result. -/
structure ResultDict where
  original_name : String
  cleaned_name : String
  url : String
  status_code : Option Int
  time_taken : ℚ
deriving DecidableEq, Repr

/-- The shared fallback loop: try the candidate URLs in order, return the
first that yields any HTTP response together with its status code; `none`
when every candidate fails (lines 100-113 / 154-167 / 184-195). -/
def first_response (T : Transport) : List String → Option (String × Int)
  | [] => none
  | url :: rest =>
    match T url with
    | some code => some (url, code)
    | none => first_response T rest

/-! ## Sequential strategy: `check_websites_sequential` (lines 143-171) -/

/-- Model of `check_websites_sequential` (lines 143-171): per company, try the URLs in
order and append a result on the first successful request, then `break`; when
every URL raises, the loop falls through and NOTHING is appended for that
company. -/
def check_websites_sequential (T : Transport) (companies : List String) :
    List ResultDict :=
  companies.filterMap (fun company =>
    (first_response T (generate_website_urls company)).map (fun r =>
      { original_name := company
        cleaned_name := clean_company_name company
        url := r.1
        status_code := some r.2
        time_taken := 0 }))

/-! ## Pooled-parallel strategy: `check_websites_parallel` (lines 173-210) -/

/-- Model of `check_single_company` (lines 180-203): the parallel worker; on
exhaustion it returns a dictionary with `url = 'N/A'` and `status_code = 0`
(line 201). -/
def check_single_company (T : Transport) (company : String) : ResultDict :=
  match first_response T (generate_website_urls company) with
  | some r =>
    { original_name := company
      cleaned_name := clean_company_name company
      url := r.1
      status_code := some r.2
      time_taken := 0 }
  | none =>
    { original_name := company
      cleaned_name := clean_company_name company
      url := "N/A"
      status_code := some 0
      time_taken := 0 }

/-- Model of `check_websites_parallel` (lines 173-210): `executor.map` applies the
worker to every company and returns the results in input order. -/
def check_websites_parallel (T : Transport) (companies : List String) :
    List ResultDict :=
  companies.map (check_single_company T)

/-! ## Cooperative-async strategy: `WebsiteChecker` (lines 12-141) -/

/-- The `WebsiteChecker` instance state after `__init__` (lines 13-31).
`rate_limit` is the instance attribute set on line 29 from the float
parameter; it shadows the coroutine method of the same name
(lines 77-87), because Python instance attributes take precedence over
plain (non-data-descriptor) class methods. -/
structure WebsiteChecker where
  timeout : Nat := 3
  max_concurrent : Nat := 10
  rate_limit : ℚ := 1/5
deriving DecidableEq, Repr

/-- The awaited rate-limit call on line 98: the attribute lookup finds
the instance attribute (the float stored by `__init__`, line 29), not the
coroutine method of lines 77-87, so calling it raises
`TypeError: 'float' object is not callable`. -/
def rate_limit_call (_c : WebsiteChecker) : Except PyErr Unit :=
  .error .typeError

/-- The body of `check_website_async` after the rate-limit call
(lines 100-123): the fallback loop over the generated URLs; on exhaustion the
returned dictionary has `url = 'N/A'` and `status_code = None` (lines
117-123). -/
def check_website_async_body (T : Transport) (company : String) : ResultDict :=
  match first_response T (generate_website_urls company) with
  | some r =>
    { original_name := company
      cleaned_name := clean_company_name company
      url := r.1
      status_code := some r.2
      time_taken := 0 }
  | none =>
    { original_name := company
      cleaned_name := clean_company_name company
      url := "N/A"
      status_code := none
      time_taken := 0 }

/-- Model of `check_website_async` (lines 89-123) as shipped: it first executes
`await self.rate_limit()` (line 98), which raises `TypeError` (see
`rate_limit_call`), before any URL is tried; the `except` clause on line 112
catches only `aiohttp.ClientError` and `asyncio.TimeoutError`, so that
`TypeError` propagates to the caller. -/
def check_website_async (c : WebsiteChecker) (T : Transport)
    (company : String) : Except PyErr ResultDict :=
  match rate_limit_call c with
  | .error e => .error e
  | .ok _ => .ok (check_website_async_body T company)

/-- Model of `check_websites_async` (lines 124-130): `asyncio.gather` over one task
per company — results in input order, the first exception propagating. -/
def check_websites_async (c : WebsiteChecker) (T : Transport) :
    List String → Except PyErr (List ResultDict)
  | [] => .ok []
  | company :: rest => do
    let r ← check_website_async c T company
    let rs ← check_websites_async c T rest
    pure (r :: rs)

/-- Model of `run_async` (lines 132-141): asyncio run of the gathered checks. -/
def run_async (c : WebsiteChecker) (T : Transport) (companies : List String) :
    Except PyErr (List ResultDict) :=
  check_websites_async c T companies

/-! ## Metrics aggregation: `analyze_performance` (lines 212-230) -/

/-- The performance-metrics dictionary built on lines 220-228. -/
structure PerformanceMetrics where
  total_companies : Nat
  successful_checks : Nat
  success_rate : ℚ
  average_response_time : ℚ
  median_response_time : ℚ
  min_response_time : ℚ
  max_response_time : ℚ
deriving DecidableEq, Repr

/-- Stable insertion into an ascending list. -/
def insertSorted (x : ℚ) : List ℚ → List ℚ
  | [] => [x]
  | y :: ys => if x ≤ y then x :: y :: ys else y :: insertSorted x ys

/-- Ascending sort, as the sorting inside statistics median produces. -/
def pysort (l : List ℚ) : List ℚ :=
  l.foldr insertSorted []

/-- Python statistics median: middle element of the sorted list, or the average of
the two middle elements for even length. -/
def pymedian (l : List ℚ) : ℚ :=
  let s := pysort l
  let n := l.length
  if n % 2 = 1 then s.getD (n / 2) 0
  else (s.getD (n / 2 - 1) 0 + s.getD (n / 2) 0) / 2

/-- Count of codes comparing greater than 0, over well-typed (all-`some`)
status codes (lines 222-223). -/
def successCount (codes : List (Option Int)) : Nat :=
  codes.countP (fun c =>
    match c with
    | some k => decide (k > 0)
    | none => false)

/-- Model of `analyze_performance` (lines 212-230).  The dictionary literal of lines
220-228 is evaluated top to bottom, so: if any `status_code` is `None`, the
comparison `code > 0` inside `successful_checks` raises `TypeError` first;
otherwise, if the result list is empty, the division by
len(results) inside success_rate raises `ZeroDivisionError`; otherwise every metric is defined
and a dictionary is returned. -/
def analyze_performance (results : List ResultDict) :
    Except PyErr PerformanceMetrics :=
  let status_codes := results.map (fun r => r.status_code)
  let response_times := results.map (fun r => r.time_taken)
  if status_codes.any (fun c => c.isNone) then .error .typeError
  else if results.length = 0 then .error .zeroDivisionError
  else .ok
    { total_companies := results.length
      successful_checks := successCount status_codes
      success_rate := (successCount status_codes : ℚ) / (results.length : ℚ) * 100
      average_response_time := response_times.sum / (response_times.length : ℚ)
      median_response_time := pymedian response_times
      min_response_time := (pysort response_times).headD 0
      max_response_time := (pysort response_times).getLastD 0 }

/-! ## Dispatch traces (for the rate-limiter claim) -/

/-- An observable dispatch-path event: acquiring the shared rate limiter, or
issuing one HTTP GET. -/
inductive DispatchEvent where
  | acquireRateLimiter
  | httpGet (url : String)
deriving DecidableEq, Repr

/-- The dispatch events of the fallback loop of one company in the sequential
strategy (lines 154-167) and in the parallel worker (lines 184-195): each
candidate URL is fetched by a bare `requests.get` with no rate-limiter in
sight, stopping after the first URL that responds. -/
def probe_trace (T : Transport) : List String → List DispatchEvent
  | [] => []
  | url :: rest =>
    match T url with
    | some _ => [.httpGet url]
    | none => .httpGet url :: probe_trace T rest

/-- Dispatch events of one whole `check_websites_sequential` run. -/
def sequential_trace (T : Transport) (companies : List String) :
    List DispatchEvent :=
  companies.foldr
    (fun company acc => probe_trace T (generate_website_urls company) ++ acc) []

/-- Dispatch events of one parallel worker (`check_single_company`): the
same bare `requests.get` loop as the sequential strategy. -/
def parallel_company_trace (T : Transport) (company : String) :
    List DispatchEvent :=
  probe_trace T (generate_website_urls company)

/-- Test for an HTTP-GET event. -/
def isHttpGet : DispatchEvent → Bool
  | .httpGet _ => true
  | .acquireRateLimiter => false

/-- True when no event of the trace is a rate-limiter acquisition. -/
def noRateLimiterEvent (trace : List DispatchEvent) : Bool :=
  trace.all isHttpGet

/-! ## Derived views used by the claims -/

/-- Company-to-outcome mapping extracted from the result list of a strategy: the
first result for the company, read as a (succeeded, status_code) pair, where
succeeded is read off as url being different from the failure marker N/A. -/
def strategyMap (rs : List ResultDict) (company : String) :
    Option (Bool × Option Int) :=
  (rs.find? (fun r => r.original_name == company)).map
    (fun r => (r.url != "N/A", r.status_code))

/-- Character-level string-suffix test. -/
def endsWithStr (s suf : String) : Bool :=
  suf.data.isSuffixOf s.data

end StatusCheck

namespace StatusCheck

/-! ## Theorems -/

/-- The fallback loop returns, for the first candidate URL on which the
transport yields a response, that URL paired with its status code. -/
theorem first_response_eq_find (T : Transport) (urls : List String) :
    first_response T urls =
      (urls.find? (fun u => (T u).isSome)).bind
        (fun u => (T u).map (fun s => (u, s))) := by
  induction urls with
  | nil => rfl
  | cons u rest ih =>
    cases hu : T u with
    | some code =>
      simp [first_response, hu, List.find?_cons_of_pos, Option.isSome]
    | none =>
      rw [first_response, hu, ih, List.find?_cons_of_neg]
      simp [hu]

/-- C1: claimed, for every company name and every transport behavior,
the probe of a single company (check_website_async) returns a result value and
never raises past the probe boundary.  The shipped code instead raises
TypeError on every input: line 29 stores the float parameter in the
attribute that shadows the coroutine method of lines 77-87, so the call on
line 98 invokes a float, before any candidate URL is tried, and the except
clause of line 112 does not catch TypeError. -/
theorem C1_probe_always_raises_typeError (c : WebsiteChecker) (T : Transport)
    (company : String) :
    check_website_async c T company = Except.error PyErr.typeError := rfl

/-- C6 counterexample: name normalization is not idempotent.  One pass over
the string A-space-Inc-space-Corp strips only the Corp suffix (the Inc
pattern had already been tried, on the unstripped string), so a second pass
strips the newly exposed Inc suffix and gives a different answer. -/
theorem C6_counterexample :
    clean_company_name (clean_company_name "A Inc Corp") ≠
      clean_company_name "A Inc Corp" := by decide

/-- C6 amended: normalization is pure and deterministic (it is a function of
its input alone; the memo cache has no semantic effect), but it is not
idempotent: a first pass can expose a suffix that only a second pass strips. -/
theorem C6_amended_not_idempotent :
    clean_company_name "A Inc Corp" = "A Inc" ∧
    clean_company_name "A Inc" = "A" ∧
    clean_company_name (clean_company_name "A Inc Corp") = "A" := by decide

/-- C7 counterexample: the claim says a name ending in Corporation-space-Ltd
has both suffixes stripped, the result ending with neither.  In the source
the Corporation pattern (fourth) is applied before the Ltd pattern (sixth),
so when Ltd is finally stripped no later pattern can remove the newly
exposed Corporation, and the cleaned name still ends with Corporation. -/
theorem C7_counterexample :
    endsWithStr (clean_company_name "Acme Corporation Ltd") "Corporation"
      = true := by decide

/-- C7 amended: the six suffix patterns are applied once each, in the listed
order (Inc, Corp, Incorporated, Corporation, Limited, Ltd),
case-insensitively and anchored at the end, against the current state of the
string.  Cascaded stripping therefore only happens when a strip exposes a
suffix whose pattern occurs later in the list: a name ending in
Corporation-space-Ltd loses only Ltd (the result ends with Corporation),
whereas a name ending in Ltd-space-Corporation loses both. -/
theorem C7_amended_order :
    clean_company_name "Acme Corporation Ltd" = "Acme Corporation" ∧
    strip_suffixes "Acme Corporation Ltd" = "Acme Corporation" ∧
    clean_company_name "Acme Ltd Corporation" = "Acme" := by decide

/-- C9: generate_website_urls lower-cases the cleaned name, removes spaces,
and substitutes it into the fixed six-template list in priority order; it is
deterministic (a Lean function), insensitive to suffixes and case exactly as
normalization dictates, and an empty cleaned name still yields the six
template URLs rather than failing. -/
theorem C9_url_generation (name : String) :
    generate_website_urls name =
      (let n := removeSpaces (lowerStr (clean_company_name name))
       [ "https://www." ++ n ++ ".com"
       , "https://" ++ n ++ ".com"
       , "http://www." ++ n ++ ".com"
       , "http://" ++ n ++ ".com"
       , "https://" ++ n ++ ".net"
       , "https://www." ++ n ++ ".org" ]) ∧
    (generate_website_urls name).length = 6 ∧
    generate_website_urls "Apple Inc." = generate_website_urls "apple" ∧
    generate_website_urls "" =
      [ "https://www..com", "https://.com", "http://www..com", "http://.com"
      , "https://.net", "https://www..org" ] := by
  exact ⟨rfl, rfl, by decide, by decide⟩

end StatusCheck

namespace StatusCheck

/-! ## Rate limiter (C8) -/

/-- The per-company dispatch loop of the sequential strategy and of the
parallel worker contains HTTP-GET events only: no rate-limiter acquisition
appears anywhere in it. -/
theorem probe_trace_no_rate_limiter (T : Transport) (urls : List String) :
    noRateLimiterEvent (probe_trace T urls) = true := by
  induction urls with
  | nil => rfl
  | cons u rest ih =>
    unfold probe_trace
    cases T u with
    | some code => rfl
    | none =>
      simp only [noRateLimiterEvent, List.all_cons] at *
      simpa [isHttpGet] using ih

/-- C8 counterexample: the sequential strategy issues an outbound HTTP
request with no rate-limiter acquisition anywhere in its dispatch trace,
refuting the claim that every dispatch passes through the shared limiter. -/
theorem C8_counterexample :
    sequential_trace (fun _ => some 200) ["Acme"] =
      [DispatchEvent.httpGet "https://www.acme.com"] ∧
    noRateLimiterEvent (sequential_trace (fun _ => some 200) ["Acme"]) =
      true := by decide

/-- C8 amended: only the cooperative-async dispatch path goes through the
shared rate limiter at all, and there the call raises TypeError before any
request is issued (the attribute shadowing of C1); the sequential strategy
and the pooled-parallel worker issue every request bare, with no
rate-limiter acquisition in their dispatch traces. -/
theorem C8_amended_only_async_rate_limits (T : Transport)
    (companies : List String) (company : String) :
    noRateLimiterEvent (sequential_trace T companies) = true ∧
    noRateLimiterEvent (parallel_company_trace T company) = true ∧
    (∀ c : WebsiteChecker,
      check_website_async c T company = Except.error PyErr.typeError) := by
  refine ⟨?_, probe_trace_no_rate_limiter T _, fun c => rfl⟩
  induction companies with
  | nil => rfl
  | cons company0 rest ih =>
    simp only [sequential_trace, List.foldr_cons, noRateLimiterEvent,
      List.all_append, Bool.and_eq_true] at *
    exact ⟨probe_trace_no_rate_limiter T _, ih⟩

/-! ## One result per company (C3) -/

/-- C3 counterexample: a company whose every candidate URL fails contributes
NO result at all to the output of the sequential strategy (the claim demanded
exactly one failed result). -/
theorem C3_counterexample :
    (check_websites_sequential (fun _ => none) ["Acme"]).length = 0 ∧
    ["Acme"].length = 1 := by decide

/-- C3 amended: the pooled-parallel strategy produces exactly one result per
company for every transport (an all-fail company yields the status-0 failure
dictionary); the sequential strategy produces exactly one result per company
that has some responding candidate URL, and none for an all-fail company.
(The cooperative-async strategy produces no batch at all as shipped: it
raises TypeError, see C1.) -/
theorem C3_amended_result_counts (T : Transport) (companies : List String) :
    (check_websites_parallel T companies).length = companies.length ∧
    (check_websites_sequential T companies).length =
      companies.countP
        (fun c => (first_response T (generate_website_urls c)).isSome) := by
  constructor
  · simp [check_websites_parallel]
  · induction companies with
    | nil => rfl
    | cons c cs ih =>
      simp only [check_websites_sequential, List.filterMap_cons,
        List.countP_cons] at *
      cases hr : first_response T (generate_website_urls c) with
      | none => simp [hr, ih]
      | some r => simp [hr, ih]

/-! ## Cross-strategy equivalence (C2) -/

/-- When every company in the list has at least one candidate URL on which
the transport responds, the sequential strategy and the pooled-parallel
strategy return identical result lists. -/
theorem seq_eq_par_of_all_respond (T : Transport) :
    ∀ companies : List String,
      (∀ c ∈ companies,
        (first_response T (generate_website_urls c)).isSome = true) →
      check_websites_sequential T companies =
        check_websites_parallel T companies := by
  intro companies
  induction companies with
  | nil => intro _; rfl
  | cons c cs ih =>
    intro h
    obtain ⟨r, hr⟩ :=
      Option.isSome_iff_exists.mp (h c (List.mem_cons_self c cs))
    have hrest := ih (fun x hx => h x (List.mem_cons_of_mem c hx))
    simp only [check_websites_sequential, check_websites_parallel,
      List.filterMap_cons, List.map_cons, hr, Option.map_some',
      check_single_company]
    exact congrArg (List.cons _) hrest

/-- C2 counterexample: on a transport where every URL fails, the sequential
strategy returns no entry for the company while the pooled-parallel strategy
returns a failure entry with status code 0, so the company-to-outcome
mappings differ; the cooperative-async strategy does not return a mapping at
all but raises TypeError. -/
theorem C2_counterexample :
    strategyMap (check_websites_sequential (fun _ => none) ["Acme"]) "Acme" ≠
      strategyMap (check_websites_parallel (fun _ => none) ["Acme"]) "Acme" ∧
    run_async {} (fun _ => none) ["Acme"] =
      Except.error PyErr.typeError := by
  exact ⟨by decide, rfl⟩

/-- C2 amended: for a fixed company list and a deterministic stub transport
under which every company has at least one responding candidate URL, the
sequential and pooled-parallel strategies produce identical result lists
(hence identical company-to-outcome mappings); the cooperative-async
strategy never joins this equivalence because, as shipped, it raises
TypeError on every non-empty company list. -/
theorem C2_amended_equivalence (T : Transport) (companies : List String)
    (h : ∀ c ∈ companies,
      (first_response T (generate_website_urls c)).isSome = true) :
    check_websites_sequential T companies =
      check_websites_parallel T companies ∧
    (companies ≠ [] →
      run_async {} T companies = Except.error PyErr.typeError) := by
  refine ⟨seq_eq_par_of_all_respond T companies h, ?_⟩
  intro hne
  cases companies with
  | nil => exact absurd rfl hne
  | cons c cs => rfl

/-- C2 amended, witness: on the everything-responds transport and the
one-company list the amended equivalence holds concretely. -/
theorem C2_amended_equivalence_witness :
    check_websites_sequential (fun _ => some 200) ["Acme"] =
      check_websites_parallel (fun _ => some 200) ["Acme"] ∧
    ((["Acme"] : List String) ≠ [] →
      run_async {} (fun _ => some 200) ["Acme"] =
        Except.error PyErr.typeError) :=
  C2_amended_equivalence (fun _ => some 200) ["Acme"] (by decide)

end StatusCheck

namespace StatusCheck

/-! ## Probe fallback semantics (C4) -/

/-- C4 counterexample: the claim requires status_code = none when every
candidate fails, but the exhaustion dictionary of the parallel worker (line 201)
carries status_code 0 instead. -/
theorem C4_counterexample :
    (check_single_company (fun _ => none) "Acme").status_code = some 0 ∧
    (check_single_company (fun _ => none) "Acme").status_code ≠ none := by
  decide

/-- C4 amended: both probe loops try the candidates in generated priority
order and the winner is the first candidate on which the transport yields
any HTTP response (any status code); the result carries that URL and status
code.  On exhaustion the async loop body yields url N/A with status_code
none, while the parallel worker yields url N/A with status_code 0.  (As
shipped the async probe additionally raises TypeError before the loop runs;
see C1.) -/
theorem C4_amended_fallback (T : Transport) (company : String) :
    first_response T (generate_website_urls company) =
      ((generate_website_urls company).find? (fun u => (T u).isSome)).bind
        (fun u => (T u).map (fun s => (u, s))) ∧
    (∀ u s, first_response T (generate_website_urls company) = some (u, s) →
      (check_website_async_body T company).url = u ∧
      (check_website_async_body T company).status_code = some s ∧
      (check_single_company T company).url = u ∧
      (check_single_company T company).status_code = some s) ∧
    (first_response T (generate_website_urls company) = none →
      (check_website_async_body T company).url = "N/A" ∧
      (check_website_async_body T company).status_code = none ∧
      (check_single_company T company).url = "N/A" ∧
      (check_single_company T company).status_code = some 0) := by
  refine ⟨first_response_eq_find T _, ?_, ?_⟩
  · intro u s hu
    simp [check_website_async_body, check_single_company, hu]
  · intro hn
    simp [check_website_async_body, check_single_company, hn]

/-- C4 amended, witness: the spec scenario — candidates one and two fail and
candidate three answers — where the chosen result is candidate three with
its status code, in both loop bodies. -/
theorem C4_amended_fallback_witness :
    (check_website_async_body
      (fun u => if u = "http://www.acme.com" then some 200 else none)
      "Acme").url = "http://www.acme.com" ∧
    (check_website_async_body
      (fun u => if u = "http://www.acme.com" then some 200 else none)
      "Acme").status_code = some 200 ∧
    (check_single_company
      (fun u => if u = "http://www.acme.com" then some 200 else none)
      "Acme").url = "http://www.acme.com" ∧
    (check_single_company
      (fun u => if u = "http://www.acme.com" then some 200 else none)
      "Acme").status_code = some 200 := by
  have h := (C4_amended_fallback
      (fun u => if u = "http://www.acme.com" then some 200 else none)
      "Acme").2.1 "http://www.acme.com" 200 (by decide)
  exact ⟨h.1, h.2.1, h.2.2.1, h.2.2.2⟩

/-! ## Aggregator failure modes (C5) and success counting (C10) -/

/-- On a well-typed (all status codes present) non-empty result list the
aggregator returns the metrics dictionary of lines 220-228. -/
theorem analyze_ok_of (results : List ResultDict)
    (h1 : (results.map (fun r => r.status_code)).any
      (fun c => c.isNone) = false)
    (h2 : ¬ results.length = 0) :
    analyze_performance results = Except.ok
      { total_companies := results.length
        successful_checks :=
          successCount (results.map (fun r => r.status_code))
        success_rate :=
          (successCount (results.map (fun r => r.status_code)) : ℚ) /
            (results.length : ℚ) * 100
        average_response_time :=
          (results.map (fun r => r.time_taken)).sum /
            ((results.map (fun r => r.time_taken)).length : ℚ)
        median_response_time := pymedian (results.map (fun r => r.time_taken))
        min_response_time :=
          (pysort (results.map (fun r => r.time_taken))).headD 0
        max_response_time :=
          (pysort (results.map (fun r => r.time_taken))).getLastD 0 } := by
  simp only [analyze_performance]
  rw [if_neg (by simp [h1]), if_neg h2]

/-- C5 counterexample: on the empty sequence the aggregator raises exactly a
division-by-zero (success_rate divides by len(results)), not a reported
NoData condition; and a non-empty sequence can also fail (TypeError on a
none status code), refuting the claim that every non-empty sequence yields
a summary. -/
theorem C5_counterexample :
    analyze_performance [] = Except.error PyErr.zeroDivisionError ∧
    analyze_performance [check_website_async_body (fun _ => none) "Acme"] =
      Except.error PyErr.typeError := ⟨rfl, rfl⟩

/-- C5 amended: the aggregator fails on the empty sequence with a
ZeroDivisionError (a division-by-zero-style undefined result, there is no
NoData report), fails with TypeError on any sequence containing a none
status code, and returns a summary exactly for the non-empty sequences
whose status codes are all present. -/
theorem C5_amended_failure_modes (results : List ResultDict) :
    analyze_performance [] = Except.error PyErr.zeroDivisionError ∧
    ((∃ m, analyze_performance results = Except.ok m) ↔
      (results ≠ [] ∧
        results.all (fun r => r.status_code.isSome) = true)) := by
  refine ⟨rfl, ?_⟩
  constructor
  · rintro ⟨m, hm⟩
    simp only [analyze_performance] at hm
    split at hm
    · exact Except.noConfusion hm
    · split at hm
      · exact Except.noConfusion hm
      · rename_i h1 h2
        refine ⟨fun hnil => h2 (by simp [hnil]), ?_⟩
        rw [List.all_eq_true]
        intro r hrr
        by_contra hns
        apply h1
        rw [List.any_eq_true]
        have hnone : r.status_code = none :=
          Option.not_isSome_iff_eq_none.mp hns
        exact ⟨r.status_code, List.mem_map_of_mem _ hrr, by simp [hnone]⟩
  · rintro ⟨hne, hall⟩
    have h1 : (results.map (fun r => r.status_code)).any
        (fun c => c.isNone) = false := by
      rw [List.any_eq_false]
      intro c hc
      obtain ⟨r, hrr, rfl⟩ := List.mem_map.mp hc
      have hs := List.all_eq_true.mp hall r hrr
      obtain ⟨a, ha⟩ := Option.isSome_iff_exists.mp hs
      simp [ha]
    have h2 : ¬ results.length = 0 := by
      cases results with
      | nil => exact absurd rfl hne
      | cons r rs => simp
    exact ⟨_, analyze_ok_of results h1 h2⟩

/-- C5 amended, witness: concrete instances of both failure modes and of a
successful summary. -/
theorem C5_amended_failure_modes_witness :
    analyze_performance [] = Except.error PyErr.zeroDivisionError ∧
    (∃ m, analyze_performance [check_single_company (fun _ => none) "Beta"] =
      Except.ok m) := by
  refine ⟨(C5_amended_failure_modes []).1, ?_⟩
  exact (C5_amended_failure_modes
      [check_single_company (fun _ => none) "Beta"]).2.mpr
    ⟨List.cons_ne_nil _ _, by decide⟩

/-- The successful-checks count of the aggregator is the number of results
whose status code is present and strictly positive. -/
theorem successCount_eq_countP (results : List ResultDict) :
    successCount (results.map (fun r => r.status_code)) =
      results.countP (fun r =>
        match r.status_code with
        | some k => decide (k > 0)
        | none => false) := by
  unfold successCount
  rw [List.countP_map]
  rfl

/-- C10: the aggregator counts a result as a successful check exactly when
its status code is present and compares greater than 0 (so the parallel
status-0 failure rows of the parallel strategy count as failures), and any non-empty
result sequence containing a none status code — the shape the exhaustion dictionary of the async
strategy has — makes it raise TypeError instead of
returning a summary. -/
theorem C10_success_counting (results : List ResultDict) :
    ((∃ r ∈ results, r.status_code = none) →
      analyze_performance results = Except.error PyErr.typeError) ∧
    (results ≠ [] →
      results.all (fun r => r.status_code.isSome) = true →
      (analyze_performance results).map (fun m => m.successful_checks) =
        Except.ok (results.countP (fun r =>
          match r.status_code with
          | some k => decide (k > 0)
          | none => false))) := by
  constructor
  · rintro ⟨r, hrr, hnone⟩
    have h1 : (results.map (fun r => r.status_code)).any
        (fun c => c.isNone) = true := by
      rw [List.any_eq_true]
      exact ⟨r.status_code, List.mem_map_of_mem _ hrr, by simp [hnone]⟩
    simp only [analyze_performance]
    rw [if_pos h1]
  · intro hne hall
    have h1 : (results.map (fun r => r.status_code)).any
        (fun c => c.isNone) = false := by
      rw [List.any_eq_false]
      intro c hc
      obtain ⟨r, hrr, rfl⟩ := List.mem_map.mp hc
      have hs := List.all_eq_true.mp hall r hrr
      obtain ⟨a, ha⟩ := Option.isSome_iff_exists.mp hs
      simp [ha]
    have h2 : ¬ results.length = 0 := by
      cases results with
      | nil => exact absurd rfl hne
      | cons r rs => simp
    rw [analyze_ok_of results h1 h2, Except.map, successCount_eq_countP]

/-- C10, witness: a singleton with a none status code (the async exhaustion
shape) makes the aggregator raise TypeError; a singleton 404 row yields a
summary whose success count follows the greater-than-zero rule. -/
theorem C10_success_counting_witness :
    analyze_performance [check_website_async_body (fun _ => none) "Gamma"] =
      Except.error PyErr.typeError ∧
    (analyze_performance
        [check_single_company (fun _ => some 404) "Delta"]).map
      (fun m => m.successful_checks) =
      Except.ok ([check_single_company (fun _ => some 404) "Delta"].countP
        (fun r =>
          match r.status_code with
          | some k => decide (k > 0)
          | none => false)) := by
  constructor
  · exact (C10_success_counting _).1
      ⟨check_website_async_body (fun _ => none) "Gamma",
        List.mem_cons_self _ _, rfl⟩
  · exact (C10_success_counting _).2 (List.cons_ne_nil _ _) (by decide)

end StatusCheck
